import Mathlib

/-!
Verification of the conversation-state and regeneration logic of the
discord-grok bot (src/util.py, src/button_view.py, src/xai_api.py).

The embedding is a shallow functional translation of the Python source:

* Python strings are `String` (or `List Char` where index arithmetic is
  proved about them), Python lists are `List`, and the insertion-ordered
  dict `xAIAPI.conversations` is a `List (Nat × Conversation)` whose
  `get`/`in`/`del` operations are translated as first-match `find?`,
  `any` and `filter`.
* Discord users and channels are identified by their integer ids; object
  comparisons (`interaction.user != self.conversation_starter`,
  `message.author == self.bot.user`, ...) become id comparisons.
* Awaited external calls (the xAI sampling call, `channel.history`,
  message replies) are modelled by oracle records carrying the outcome of
  each call; an outcome flag set to `false` means the Python call raised,
  and the translation then follows the source's `except` paths.
* Messages actually delivered to the user are accumulated as a `List
  Report`, one constructor per distinct user-facing message of the source.
-/

set_option linter.unusedVariables false

namespace DiscordGrok

/-- Role of a chat history entry (`user(...)`, appended responses, `system(...)`). -/
inductive Role where
  | user
  | assistant
  | system
  deriving DecidableEq, Repr, Inhabited

/-- One entry of `conversation.chat.messages`: its role, its text content
(`""` models an absent/None text) and the urls of attached images. -/
structure Entry where
  role : Role
  text : String
  images : List String
  deriving DecidableEq, Repr, Inhabited

/-- A Discord attachment: content type and url. -/
structure DAttachment where
  contentType : String
  url : String
  deriving DecidableEq, Repr, Inhabited

/-- A Discord message, reduced to the fields the source reads:
author id, channel id, text content and attachments. -/
structure Msg where
  authorId : Nat
  channelId : Nat
  content : String
  attachments : List DAttachment
  deriving DecidableEq, Repr, Inhabited

/-- `SUPPORTED_IMAGE_TYPES` from src/xai_api.py. -/
def SUPPORTED_IMAGE_TYPES : List String :=
  ["image/jpeg", "image/png", "image/gif", "image/webp"]

/-- `AVAILABLE_TOOLS` from src/util.py: the fixed dict of the four tool
names available to the UI, as (name, label) pairs. -/
def AVAILABLE_TOOLS : List (String × String) :=
  [("web_search", "Web Search"),
   ("x_search", "X Search"),
   ("code_execution", "Code Execution"),
   ("collections_search", "Collections Search")]

/-- `CHUNK_TEXT_SIZE` from src/util.py. -/
def CHUNK_TEXT_SIZE : Nat := 3500

/-- Translation of `util.chunk_text`: the comprehension
`[text[i : i + chunk_size] for i in range(0, len(text), chunk_size)]`,
with the string as a list of characters.  `range(0, len, step)` has
`ceil(len / step)` elements, i.e. `(len + step - 1) / step` in `Nat`
division, and `text[i : i + n]` is `(text.drop i).take n`.
(Python raises `ValueError` for `chunk_size = 0`; in `Nat` arithmetic the
index list is empty instead, and every result below assumes
`0 < chunk_size`.) -/
def chunk_text (text : List Char) (chunk_size : Nat) : List (List Char) :=
  (List.range' 0 ((text.length + chunk_size - 1) / chunk_size) chunk_size).map
    fun i => (text.drop i).take chunk_size

/-- `util.ChatCompletionParameters`, keeping the fields the handlers read
or write.  Tools are represented by their names (the Python list holds
SDK tool protos built from these names; `resolve_tool_name` recovers the
name).  The float sampling knobs (`temperature`, `top_p`,
`frequency_penalty`, `presence_penalty`) are floating point and never read
by the handlers under verification, so they are not carried. -/
structure ChatCompletionParameters where
  model : String
  system : Option String
  max_tokens : Option Nat
  tools : List String
  conversation_starter : Option Nat
  conversation_id : Option Nat
  channel_id : Option Nat
  paused : Bool
  deriving DecidableEq, Repr, Inhabited

/-- `util.Conversation`: parameters plus the chat object, of which the
handlers only read and mutate `chat.messages`. -/
structure Conversation where
  params : ChatCompletionParameters
  chat : List Entry
  deriving DecidableEq, Repr, Inhabited

/-- The mutable state of the `xAIAPI` cog that the verified handlers
touch: the insertion-ordered dict `self.conversations` (as an ordered
association list) and the bot's own user id (`self.bot.user`).
`self.message_to_conversation_id` and `self.views` are bookkeeping for
message ids and UI objects and are not read by any verified property. -/
structure CogState where
  conversations : List (Nat × Conversation)
  botUser : Nat
  deriving DecidableEq, Repr, Inhabited

/-- `self.cog.conversations.get(id)`: first entry with the key (a Python
dict has at most one). -/
def getConv (st : CogState) (id : Nat) : Option Conversation :=
  (st.conversations.find? (fun p => p.1 == id)).map (fun p => p.2)

/-- Mutating the object `conversations.get(id)` returned: replace the
first entry with the key. -/
def updateFirst (l : List (Nat × Conversation)) (id : Nat)
    (f : Conversation → Conversation) : List (Nat × Conversation) :=
  match l with
  | [] => []
  | p :: rest => if p.1 == id then (p.1, f p.2) :: rest else p :: updateFirst rest id f

/-- Write a new `chat.messages` list into the conversation object stored
under `id`. -/
def setConvChat (st : CogState) (id : Nat) (chat : List Entry) : CogState :=
  { st with conversations := updateFirst st.conversations id (fun c => { c with chat := chat }) }

/-- Mutate a field of `conversation.params` of the conversation object
stored under `id`. -/
def setConvParams (st : CogState) (id : Nat)
    (f : ChatCompletionParameters → ChatCompletionParameters) : CogState :=
  { st with conversations := updateFirst st.conversations id (fun c => { c with params := f c.params }) }

/-- The user-facing messages each handler can send, one constructor per
distinct message of the source. -/
inductive Report where
  /-- "You are not allowed to change tools for this conversation." -/
  | notAllowedTools
  /-- "You are not allowed to regenerate the response." -/
  | notAllowedRegenerate
  /-- "You are not allowed to pause the conversation." -/
  | notAllowedPause
  /-- "You are not allowed to end this conversation." -/
  | notAllowedStop
  /-- "No active conversation found." -/
  | noActiveConversation
  /-- "Not enough history to regenerate yet." -/
  | notEnoughHistory
  /-- "Couldn't find the message to regenerate." -/
  | couldNotFindMessage
  /-- "Response regenerated." -/
  | regenerated
  /-- "An error occurred while regenerating the response." -/
  | regenError
  /-- "Tools updated: ..." -/
  | toolsUpdated
  /-- "Tools disabled for this conversation." -/
  | toolsDisabled
  /-- "Conversation paused/resumed. Press again to toggle." (`true` when now paused) -/
  | pauseToggled (nowPaused : Bool)
  /-- "Conversation ended." -/
  | conversationEnded
  /-- "You already have an active conversation in this channel. ..." -/
  | alreadyActiveConversation
  /-- "Cannot start conversation: channel context is unavailable." -/
  | channelUnavailable
  /-- An Error embed built by `format_xai_error` -/
  | errorEmbed
  /-- A generated response delivered as reply embeds -/
  | responseReply
  /-- The "Conversation Started" embeds of a successful `/xai converse` -/
  | conversationStarted
  deriving DecidableEq, Repr, Inhabited

/-- Outcome of one `chat.sample()` call: whether it raised, and the
`content` (`""` models None) of the returned response when it did not. -/
structure SampleOutcome where
  ok : Bool
  content : String
  deriving DecidableEq, Repr, Inhabited

/-- Outcomes of the awaited calls made by
`handle_new_message_in_conversation`: the sampling call, the first
`message.reply`, the plain-text fallback reply, and the Error-embed reply
of the `except` block.  A `false` flag means that call raised.  (The
per-embed follow-up sends for chunked responses are assumed to succeed;
they append nothing to the history.) -/
structure GenOracle where
  sample : SampleOutcome
  replyOk : Bool
  fallbackOk : Bool
  errReplyOk : Bool
  deriving DecidableEq, Repr, Inhabited

/-- Urls of the attachments whose `content_type` is in
`SUPPORTED_IMAGE_TYPES` (src/xai_api.py lines 167-170). -/
def supportedImages (m : Msg) : List String :=
  (m.attachments.filter (fun a => SUPPORTED_IMAGE_TYPES.contains a.contentType)).map
    (fun a => a.url)

/-- Result of `xAIAPI.handle_new_message_in_conversation`: the new
`chat.messages` of the conversation, the messages delivered to the user,
and whether an exception escaped the call (propagating to the caller). -/
structure HandleResult where
  chat : List Entry
  reports : List Report
  raised : Bool
  deriving DecidableEq, Repr, Inhabited

/-- Translation of `xAIAPI.handle_new_message_in_conversation`
(src/xai_api.py lines 138-254).  Returns without touching the history
when the author is not the conversation starter or the conversation is
paused.  Otherwise appends the user entry (when it has any content),
samples, appends the response on success, and delivers it; a sampling or
delivery failure is caught at line 240 and reported via an Error-embed
reply, and only a failure of that reply itself escapes the call. -/
def handle_new_message_in_conversation (msg : Msg) (params : ChatCompletionParameters)
    (chat : List Entry) (o : GenOracle) : HandleResult :=
  if some msg.authorId ≠ params.conversation_starter ∨ params.paused then
    ⟨chat, [], false⟩
  else
    let images := supportedImages msg
    let chat1 :=
      if msg.content ≠ "" ∨ images ≠ [] then
        chat ++ [⟨Role.user, msg.content, images⟩]
      else chat
    if ¬ o.sample.ok then
      -- chat.sample() raised: caught at line 240, reported by an Error-embed reply
      if o.errReplyOk then ⟨chat1, [Report.errorEmbed], false⟩ else ⟨chat1, [], true⟩
    else
      let chat2 := chat1 ++ [⟨Role.assistant, o.sample.content, []⟩]
      match params.conversation_id with
      | none => ⟨chat2, [], false⟩    -- "Conversation ID is None" early return
      | some _ =>
        -- response_text is never empty, so the embeds list is non-empty
        if o.replyOk then ⟨chat2, [Report.responseReply], false⟩
        else if o.fallbackOk then ⟨chat2, [Report.responseReply], false⟩
        else if o.errReplyOk then ⟨chat2, [Report.errorEmbed], false⟩
        else ⟨chat2, [], true⟩

/-- Outcomes of the awaited calls specific to
`ButtonView.regenerate_button`: whether `interaction.channel` has a
`history` attribute, whether iterating `text_channel.history(limit=10)`
raised, the messages it yielded (most recent first) when it did not, and
the oracle for the nested generation call. -/
structure RegenOracle where
  channelHasHistory : Bool
  historyFetchOk : Bool
  recent : List Msg
  gen : GenOracle
  deriving DecidableEq, Repr, Inhabited

/-- Result of `ButtonView.regenerate_button`, plus a trace field
`invoked`: the message and the history in place at the moment
`handle_new_message_in_conversation` was awaited (`none` when it was not
reached). -/
structure RegenResult where
  state : CogState
  reports : List Report
  invoked : Option (Msg × List Entry)
  deriving DecidableEq, Repr, Inhabited

/-- The `except` block of `regenerate_button` (src/button_view.py lines
203-222): re-fetch the conversation and, when still present, re-append
the removed entries in order. -/
def regenRestore (st : CogState) (convId : Nat) (removed : List Entry) : CogState :=
  match getConv st convId with
  | none => st
  | some c => setConvChat st convId (c.chat ++ removed)

/-- Translation of `ButtonView.regenerate_button` (src/button_view.py
lines 130-222).  `starter` and `convId` are the view's
`conversation_starter` and `conversation_id`; `iUser` is
`interaction.user`.  The two `messages.pop()` calls are
`dropLast.dropLast`, `messages[-2]`/`messages[-1]` are `getD` at
`length - 2`/`length - 1`, and each failure path of the source maps to
one branch below. -/
def regenerate_button (st : CogState) (starter convId iUser : Nat)
    (o : RegenOracle) : RegenResult :=
  if iUser ≠ starter then ⟨st, [Report.notAllowedRegenerate], none⟩
  else
    match getConv st convId with
    | none => ⟨st, [Report.noActiveConversation], none⟩
    | some conv =>
      let messages := conv.chat
      if messages.length < 2 then ⟨st, [Report.notEnoughHistory], none⟩
      else
        let e1 := messages.getD (messages.length - 2) default
        let e2 := messages.getD (messages.length - 1) default
        let st1 := setConvChat st convId messages.dropLast.dropLast
        if ¬ o.channelHasHistory then
          -- re-append to the popped list and report (lines 170-176)
          ⟨setConvChat st1 convId (messages.dropLast.dropLast ++ [e1, e2]),
           [Report.couldNotFindMessage], none⟩
        else if ¬ o.historyFetchOk then
          -- iterating channel.history raised: except block (lines 203-222)
          ⟨regenRestore st1 convId [e1, e2], [Report.regenError], none⟩
        else
          match o.recent.find? (fun m => m.authorId == starter) with
          | none =>
            -- triggering message not found (lines 189-195)
            ⟨setConvChat st1 convId (messages.dropLast.dropLast ++ [e1, e2]),
             [Report.couldNotFindMessage], none⟩
          | some um =>
            let hres := handle_new_message_in_conversation um conv.params
              messages.dropLast.dropLast o.gen
            let st2 := setConvChat st1 convId hres.chat
            if hres.raised then
              ⟨regenRestore st2 convId [e1, e2], hres.reports ++ [Report.regenError],
               some (um, messages.dropLast.dropLast)⟩
            else
              ⟨st2, hres.reports ++ [Report.regenerated],
               some (um, messages.dropLast.dropLast)⟩

/-- Modelled from the spec: `xAIAPI.resolve_selected_tools` is called by
`ButtonView.tool_select_callback` (src/button_view.py line 102) but is
not defined anywhere under src/; per spec section 4.3 selecting a subset
of the four known tools replaces the conversation's active tool set, so
the resolver maps each surviving name to its tool and reports no error. -/
def resolve_selected_tools (values : List String) : List String × Option Report :=
  (values, none)

/-- Translation of `ButtonView.tool_select_callback` (src/button_view.py
lines 76-128).  `data` is `interaction.data.get("values")` (`none` when
`interaction.data` is not a dict holding a list).  The selected values
are filtered against the keys of `AVAILABLE_TOOLS`; the resolved tools
replace `conversation.params.tools`.  (`_apply_tools_to_chat` configures
the SDK chat object's tool protos and does not touch `chat.messages`;
the select-menu default flags are UI state.) -/
def tool_select_callback (st : CogState) (starter convId iUser : Nat)
    (data : Option (List String)) : CogState × List Report :=
  if iUser ≠ starter then (st, [Report.notAllowedTools])
  else
    match getConv st convId with
    | none => (st, [Report.noActiveConversation])
    | some conv =>
      let selected_values :=
        match data with
        | some raw => raw.filter (fun v => AVAILABLE_TOOLS.any (fun t => t.1 == v))
        | none => []
      match resolve_selected_tools selected_values with
      | (_, some err) => (st, [err])
      | (tools, none) =>
        let st' := setConvParams st convId (fun ps => { ps with tools := tools })
        if tools.isEmpty then (st', [Report.toolsDisabled])
        else (st', [Report.toolsUpdated])

/-- Translation of `ButtonView.play_pause_button` (src/button_view.py
lines 224-250): toggle `params.paused` when the conversation is present. -/
def play_pause_button (st : CogState) (starter convId iUser : Nat) :
    CogState × List Report :=
  if iUser ≠ starter then (st, [Report.notAllowedPause])
  else
    match getConv st convId with
    | none => (st, [Report.noActiveConversation])
    | some conv =>
      (setConvParams st convId (fun ps => { ps with paused := !ps.paused }),
       [Report.pauseToggled (!conv.params.paused)])

/-- `del self.cog.conversations[self.conversation_id]`: remove the key. -/
def removeConv (st : CogState) (id : Nat) : CogState :=
  { st with conversations := st.conversations.filter (fun p => p.1 != id) }

/-- Translation of `ButtonView.stop_button` (src/button_view.py lines
252-275). -/
def stop_button (st : CogState) (starter convId iUser : Nat) :
    CogState × List Report :=
  if iUser ≠ starter then (st, [Report.notAllowedStop])
  else
    if st.conversations.any (fun p => p.1 == convId) then
      (removeConv st convId, [Report.conversationEnded])
    else (st, [Report.noActiveConversation])

/-- The loop body of `xAIAPI.on_message` (src/xai_api.py lines 297-307):
scan the registry in insertion order, `continue` past entries whose
channel id or conversation starter does not match, handle the first
match and `break`. -/
def dispatchLoop (msg : Msg) : List (Nat × Conversation) → Option (Nat × Conversation)
  | [] => none
  | p :: rest =>
    if p.2.params.channel_id ≠ some msg.channelId then dispatchLoop msg rest
    else if p.2.params.conversation_starter ≠ some msg.authorId then dispatchLoop msg rest
    else some p

/-- Result of `xAIAPI.on_message`, with a trace field `dispatched`: the
id of the conversation whose handler was invoked, if any. -/
structure OnMessageResult where
  state : CogState
  dispatched : Option Nat
  reports : List Report
  deriving DecidableEq, Repr, Inhabited

/-- Translation of `xAIAPI.on_message` (src/xai_api.py lines 285-307):
ignore the bot's own messages, otherwise dispatch to the first matching
conversation. -/
def on_message (st : CogState) (msg : Msg) (o : GenOracle) : OnMessageResult :=
  if msg.authorId = st.botUser then ⟨st, none, []⟩
  else
    match dispatchLoop msg st.conversations with
    | none => ⟨st, none, []⟩
    | some (id, conv) =>
      let hres := handle_new_message_in_conversation msg conv.params conv.chat o
      ⟨setConvChat st id hres.chat, some id, hres.reports⟩

/-- Outcome of the awaited calls of `/xai converse`: the initial
`chat.sample()`.  (The follow-up send of the embeds is assumed to
succeed; a failure there would reach the `except` block before the
conversation is stored.) -/
structure ConverseOracle where
  sample : SampleOutcome
  deriving DecidableEq, Repr, Inhabited

/-- Translation of `xAIAPI.converse` (src/xai_api.py lines 396-552),
keeping the state-relevant steps: the channel-availability check, the
one-conversation-per-user-per-channel check over the registry values, the
initial system/user messages, the first sampling call, and the storing of
the new `Conversation` under the interaction id.  Embed formatting and
the `self.views` / `self.message_to_conversation_id` bookkeeping carry no
conversation state.  (The source also tags reasoning models via
`REASONING_MODELS`, a name `util.py` does not define.) -/
def converse (st : CogState) (author : Nat) (channel : Option Nat)
    (interactionId : Nat) (prompt : String) (model : String)
    (system_prompt : Option String) (attachment : Option DAttachment)
    (max_tokens : Nat) (o : ConverseOracle) : CogState × List Report :=
  match channel with
  | none => (st, [Report.channelUnavailable])
  | some channelId =>
    if st.conversations.any (fun p =>
        p.2.params.conversation_starter == some author
          && p.2.params.channel_id == some channelId) then
      (st, [Report.alreadyActiveConversation])
    else
      let sysMsgs :=
        match system_prompt with
        | some s => [Entry.mk Role.system s []]
        | none => []
      let images :=
        match attachment with
        | some a => if SUPPORTED_IMAGE_TYPES.contains a.contentType then [a.url] else []
        | none => []
      let initial := sysMsgs ++ [Entry.mk Role.user prompt images]
      if ¬ o.sample.ok then (st, [Report.errorEmbed])
      else
        let chat := initial ++ [Entry.mk Role.assistant o.sample.content []]
        let params : ChatCompletionParameters :=
          ⟨model, system_prompt, some max_tokens, [], some author,
           some interactionId, some channelId, false⟩
        ({ st with conversations := st.conversations ++ [(interactionId, ⟨params, chat⟩)] },
         [Report.conversationStarted])

/-- The two entries removed by the double pop, `[messages[-2], messages[-1]]`. -/
def removedPair (l : List Entry) : List Entry :=
  [l.getD (l.length - 2) default, l.getD (l.length - 1) default]

/-- The four tool names of the spec's fixed enumerated tool set, as the
spec lists them (section 4.3 with src/util.py lines 35-38). -/
def knownToolNames : List String :=
  ["web_search", "x_search", "code_execution", "collections_search"]

section Examples

/-- A user entry, as left by a previous exchange. -/
def exUser : Entry := ⟨Role.user, "hello", []⟩

/-- An assistant entry, as left by a previous exchange. -/
def exAssistant : Entry := ⟨Role.assistant, "hi there", []⟩

/-- Parameters of a conversation started by user 5 in channel 9 under id 1. -/
def exParams : ChatCompletionParameters :=
  ⟨"grok-3", none, some 16384, [], some 5, some 1, some 9, false⟩

/-- A conversation holding one user/assistant exchange. -/
def exConv : Conversation := ⟨exParams, [exUser, exAssistant]⟩

/-- A registry holding `exConv` under id 1; the bot's user id is 99. -/
def exState : CogState := ⟨[(1, exConv)], 99⟩

/-- A follow-up message from user 5 in channel 9. -/
def exFollowup : Msg := ⟨5, 9, "again", []⟩

/-- A generation oracle on which every awaited call succeeds. -/
def exGenOk : GenOracle := ⟨⟨true, "resp2"⟩, true, true, true⟩

end Examples

/-- The C1 failure scenario: sampling raises and the Error-embed reply
raises too, so the error propagates out of re-generation. -/
def c1Oracle : RegenOracle := ⟨true, true, [exFollowup], ⟨⟨false, ""⟩, true, true, false⟩⟩

/-- A regeneration attempt on which iterating the channel history raises. -/
def c1aOracle : RegenOracle := ⟨true, false, [], exGenOk⟩

section ChunkLemmas

lemma chunk_text_nil (n : Nat) : chunk_text [] n = [] := by
  have h : (n - 1) / n = 0 := by
    rcases Nat.eq_zero_or_pos n with h | h
    · subst h; rfl
    · exact Nat.div_eq_of_lt (by omega)
  simp [chunk_text, h]

lemma chunk_text_cons (a : Char) (l : List Char) (n : Nat) (hn : 0 < n) :
    chunk_text (a :: l) n = (a :: l.take (n - 1)) :: chunk_text (l.drop (n - 1)) n := by
  obtain ⟨m, rfl⟩ : ∃ m, n = m + 1 := ⟨n - 1, by omega⟩
  simp only [Nat.add_sub_cancel]
  have hcount : ((a :: l).length + (m + 1) - 1) / (m + 1) = l.length / (m + 1) + 1 := by
    have h1 : (a :: l).length + (m + 1) - 1 = l.length + (m + 1) := by
      simp only [List.length_cons]
      omega
    rw [h1, Nat.add_div_right _ (Nat.succ_pos m)]
  have hcount' : ((l.drop m).length + (m + 1) - 1) / (m + 1) = l.length / (m + 1) := by
    rw [List.length_drop]
    rcases le_or_lt m l.length with h | h
    · have h2 : l.length - m + (m + 1) - 1 = l.length := by omega
      rw [h2]
    · have h2 : l.length - m + (m + 1) - 1 = m := by omega
      rw [h2, Nat.div_eq_of_lt (by omega), Nat.div_eq_of_lt (by omega)]
  unfold chunk_text
  rw [hcount, hcount', List.range'_succ]
  simp only [List.map_cons, List.drop_zero, Nat.zero_add]
  refine congrArg₂ List.cons (by rw [List.take_succ_cons]) ?_
  have hshift := List.map_add_range' (m + 1) 0 (l.length / (m + 1)) (m + 1)
  rw [Nat.add_zero] at hshift
  rw [← hshift, List.map_map]
  have hfun : ((fun i => ((a :: l).drop i).take (m + 1)) ∘ fun x => m + 1 + x)
      = fun i => (((l.drop m).drop i).take (m + 1)) := by
    funext i
    have h3 : m + 1 + i = (m + i) + 1 := by omega
    simp only [Function.comp_apply, h3, List.drop_succ_cons, List.drop_drop]
  rw [hfun]

lemma chunk_text_eq_nil_iff (l : List Char) (n : Nat) (hn : 0 < n) :
    chunk_text l n = [] ↔ l = [] := by
  cases l with
  | nil => simp [chunk_text_nil]
  | cons a t => rw [chunk_text_cons a t n hn]; simp

theorem chunk_join : ∀ (l : List Char) (n : Nat), 0 < n → (chunk_text l n).flatten = l
  | [], n, hn => by rw [chunk_text_nil]; rfl
  | a :: t, n, hn => by
    rw [chunk_text_cons a t n hn]
    have ih := chunk_join (t.drop (n - 1)) n hn
    simp only [List.flatten_cons, ih, List.cons_append]
    rw [List.take_append_drop]
termination_by l _ _ => l.length
decreasing_by
  simp only [List.length_drop, List.length_cons]
  omega

theorem chunk_mem : ∀ (l : List Char) (n : Nat), 0 < n →
    ∀ c ∈ chunk_text l n, c ≠ [] ∧ c.length ≤ n
  | [], n, hn => by rw [chunk_text_nil]; intro c hc; simp at hc
  | a :: t, n, hn => by
    rw [chunk_text_cons a t n hn]
    intro c hc
    rcases List.mem_cons.mp hc with rfl | hcm
    · refine ⟨by simp, ?_⟩
      simp only [List.length_cons, List.length_take]
      omega
    · exact chunk_mem (t.drop (n - 1)) n hn c hcm
termination_by l _ _ => l.length
decreasing_by
  simp only [List.length_drop, List.length_cons]
  omega

theorem chunk_dropLast : ∀ (l : List Char) (n : Nat), 0 < n →
    ∀ c ∈ (chunk_text l n).dropLast, c.length = n
  | [], n, hn => by rw [chunk_text_nil]; simp
  | a :: t, n, hn => by
    rw [chunk_text_cons a t n hn]
    cases hcl : chunk_text (t.drop (n - 1)) n with
    | nil => simp
    | cons d ds =>
      intro c hc
      rw [List.dropLast_cons₂] at hc
      rcases List.mem_cons.mp hc with rfl | hcm
      · have hdrop : t.drop (n - 1) ≠ [] := by
          intro hnil
          rw [hnil, chunk_text_nil] at hcl
          exact List.noConfusion hcl
        have hlen : n - 1 ≤ t.length := by
          by_contra hle
          exact hdrop (List.drop_eq_nil_of_le (by omega))
        simp only [List.length_cons, List.length_take]
        omega
      · have := chunk_dropLast (t.drop (n - 1)) n hn c
        rw [hcl] at this
        exact this hcm
termination_by l _ _ => l.length
decreasing_by
  simp only [List.length_drop, List.length_cons]
  omega

end ChunkLemmas

section RegistryLemmas

lemma find?_updateFirst (l : List (Nat × Conversation)) (id : Nat)
    (f : Conversation → Conversation) :
    (updateFirst l id f).find? (fun p => p.1 == id) =
      (l.find? (fun p => p.1 == id)).map (fun p => (p.1, f p.2)) := by
  induction l with
  | nil => rfl
  | cons p rest ih =>
    by_cases h : p.1 = id
    · simp [updateFirst, h, List.find?_cons_of_pos]
    · rw [updateFirst]
      simp only [beq_iff_eq, h, if_false]
      rw [List.find?_cons_of_neg _ (by simp [h]), List.find?_cons_of_neg _ (by simp [h]), ih]

lemma getConv_setConvChat (st : CogState) (id : Nat) (chat : List Entry) :
    getConv (setConvChat st id chat) id =
      (getConv st id).map (fun c => { c with chat := chat }) := by
  simp [getConv, setConvChat, find?_updateFirst, Option.map_map]
  rfl

lemma updateFirst_updateFirst (l : List (Nat × Conversation)) (id : Nat)
    (f g : Conversation → Conversation) :
    updateFirst (updateFirst l id f) id g = updateFirst l id (fun c => g (f c)) := by
  induction l with
  | nil => rfl
  | cons p rest ih =>
    by_cases h : p.1 = id
    · simp [updateFirst, h]
    · simp [updateFirst, h, ih]

lemma setConvChat_setConvChat (st : CogState) (id : Nat) (a b : List Entry) :
    setConvChat (setConvChat st id a) id b = setConvChat st id b := by
  simp [setConvChat, updateFirst_updateFirst]

lemma updateFirst_chat_self : ∀ (l : List (Nat × Conversation)) (id : Nat) (conv : Conversation),
    (l.find? (fun p => p.1 == id)).map (fun p => p.2) = some conv →
    updateFirst l id (fun c => { c with chat := conv.chat }) = l
  | [], id, conv, h => by simp [List.find?_nil] at h
  | p :: rest, id, conv, h => by
    obtain ⟨k, c⟩ := p
    by_cases hp : k = id
    · rw [List.find?_cons_of_pos _ (by simp [hp])] at h
      have h2 : c = conv := by simpa using h
      subst h2
      subst hp
      simp [updateFirst]
    · rw [List.find?_cons_of_neg _ (by simp [hp])] at h
      simp [updateFirst, hp, updateFirst_chat_self rest id conv h]


lemma setConvChat_self (st : CogState) (id : Nat) (conv : Conversation)
    (h : getConv st id = some conv) : setConvChat st id conv.chat = st := by
  unfold getConv at h
  unfold setConvChat
  rw [updateFirst_chat_self st.conversations id conv h]

lemma find?_filter_ne (l : List (Nat × Conversation)) (id : Nat) :
    (l.filter (fun p => p.1 != id)).find? (fun p => p.1 == id) = none := by
  rw [List.find?_eq_none]
  intro x hx
  have hb := (List.mem_filter.mp hx).2
  simp only [bne_iff_ne, ne_eq] at hb
  simp [hb]

end RegistryLemmas

section PopLemmas

lemma dropLast_dropLast_eq_take (l : List Entry) :
    l.dropLast.dropLast = l.take (l.length - 2) := by
  rw [List.dropLast_eq_take, List.dropLast_eq_take, List.length_take, List.take_take]
  congr 1
  omega

lemma restore_pop_two (l : List Entry) (h : 2 ≤ l.length) :
    l.dropLast.dropLast ++ removedPair l = l := by
  rw [dropLast_dropLast_eq_take, removedPair]
  have h2 : l.length - 2 < l.length := by omega
  have h1 : l.length - 1 < l.length := by omega
  rw [List.getD_eq_getElem l default h2, List.getD_eq_getElem l default h1]
  have e2 : l.length - 2 + 1 = l.length - 1 := by omega
  have hd2 := List.drop_eq_getElem_cons h2
  rw [e2] at hd2
  have hd1 := List.drop_eq_getElem_cons h1
  have e1 : l.length - 1 + 1 = l.length := by omega
  rw [e1, List.drop_length] at hd1
  calc l.take (l.length - 2) ++ [l[l.length - 2], l[l.length - 1]]
      = l.take (l.length - 2) ++ l.drop (l.length - 2) := by rw [hd2, hd1]
    _ = l := List.take_append_drop _ l

end PopLemmas


section ClaimProofs

/-- C3: when the conversation's history has fewer than two entries,
`regenerate_button` mutates nothing (the cog state is returned as it
was) and reports "Not enough history to regenerate yet." -/
theorem regenerate_short_history_no_mutation (st : CogState) (starter convId : Nat)
    (o : RegenOracle) (conv : Conversation) (hc : getConv st convId = some conv)
    (hl : conv.chat.length < 2) :
    regenerate_button st starter convId starter o = ⟨st, [Report.notEnoughHistory], none⟩ := by
  simp [regenerate_button, hc, hl]

/-- Witness for `regenerate_short_history_no_mutation` at a one-entry history. -/
theorem regenerate_short_history_no_mutation_witness :
    regenerate_button ⟨[(1, ⟨exParams, [exAssistant]⟩)], 99⟩ 5 1 5
        ⟨true, true, [exFollowup], exGenOk⟩ =
      ⟨⟨[(1, ⟨exParams, [exAssistant]⟩)], 99⟩, [Report.notEnoughHistory], none⟩ :=
  regenerate_short_history_no_mutation _ 5 1 _ ⟨exParams, [exAssistant]⟩ (by decide) (by decide)

/-- C2: when the last two entries have been popped but the triggering
user message cannot be re-located (the channel has no history attribute,
or none of the recent channel messages is from the conversation
starter), `regenerate_button` re-appends both entries in their original
order and reports the failure; the final state equals the
pre-regeneration state. -/
theorem regenerate_restores_on_relocation_failure (st : CogState) (starter convId : Nat)
    (o : RegenOracle) (conv : Conversation) (hc : getConv st convId = some conv)
    (hl : 2 ≤ conv.chat.length)
    (hfail : o.channelHasHistory = false ∨
      (o.historyFetchOk = true ∧
        o.recent.find? (fun m => m.authorId == starter) = none)) :
    regenerate_button st starter convId starter o =
      ⟨st, [Report.couldNotFindMessage], none⟩ := by
  have hnl : ¬ (conv.chat.length < 2) := by omega
  have hrestore := restore_pop_two conv.chat hl
  simp only [removedPair] at hrestore
  rcases hfail with hch | ⟨hfetch, hfind⟩
  · simp only [regenerate_button, hc, hnl, hch]
    simp only [setConvChat_setConvChat, hrestore, setConvChat_self st convId conv hc]
    simp
  · simp only [regenerate_button, hc, hnl, hfetch, hfind]
    simp only [setConvChat_setConvChat, hrestore, setConvChat_self st convId conv hc]
    simp

/-- Witness for `regenerate_restores_on_relocation_failure`: the ten
recent messages hold none from the starter. -/
theorem regenerate_restores_on_relocation_failure_witness :
    regenerate_button exState 5 1 5 ⟨true, true, [⟨7, 9, "other", []⟩], exGenOk⟩ =
      ⟨exState, [Report.couldNotFindMessage], none⟩ :=
  regenerate_restores_on_relocation_failure exState 5 1 _ exConv (by decide) (by decide)
    (Or.inr ⟨rfl, by decide⟩)

/-- C8: a UI interaction (tool select, regenerate, pause/resume, stop)
by a user other than the conversation starter is refused and leaves the
cog state untouched. -/
theorem non_starter_interactions_rejected (st : CogState) (starter convId iUser : Nat)
    (h : iUser ≠ starter) (data : Option (List String)) (o : RegenOracle) :
    tool_select_callback st starter convId iUser data = (st, [Report.notAllowedTools]) ∧
    regenerate_button st starter convId iUser o = ⟨st, [Report.notAllowedRegenerate], none⟩ ∧
    play_pause_button st starter convId iUser = (st, [Report.notAllowedPause]) ∧
    stop_button st starter convId iUser = (st, [Report.notAllowedStop]) := by
  refine ⟨?_, ?_, ?_, ?_⟩ <;>
    simp [tool_select_callback, regenerate_button, play_pause_button, stop_button, h]

/-- Witness for `non_starter_interactions_rejected`: user 6 clicks on
user 5's conversation controls. -/
theorem non_starter_interactions_rejected_witness :
    tool_select_callback exState 5 1 6 (some ["web_search"]) =
        (exState, [Report.notAllowedTools]) ∧
    regenerate_button exState 5 1 6 ⟨true, true, [exFollowup], exGenOk⟩ =
        ⟨exState, [Report.notAllowedRegenerate], none⟩ ∧
    play_pause_button exState 5 1 6 = (exState, [Report.notAllowedPause]) ∧
    stop_button exState 5 1 6 = (exState, [Report.notAllowedStop]) :=
  non_starter_interactions_rejected exState 5 1 6 (by decide) _ _

/-- C5: when the registry already holds a conversation whose starter and
channel match the invoking user and channel, `/xai converse` is rejected
with an error and the registry is unchanged. -/
theorem converse_rejects_second_conversation (st : CogState)
    (author channelId interactionId : Nat) (prompt model : String)
    (system_prompt : Option String) (attachment : Option DAttachment)
    (max_tokens : Nat) (o : ConverseOracle)
    (h : ∃ p ∈ st.conversations, p.2.params.conversation_starter = some author ∧
        p.2.params.channel_id = some channelId) :
    converse st author (some channelId) interactionId prompt model system_prompt
        attachment max_tokens o = (st, [Report.alreadyActiveConversation]) := by
  have hany : st.conversations.any (fun p =>
      p.2.params.conversation_starter == some author
        && p.2.params.channel_id == some channelId) = true := by
    rw [List.any_eq_true]
    obtain ⟨p, hp, h1, h2⟩ := h
    exact ⟨p, hp, by simp [h1, h2]⟩
  simp [converse, hany]

/-- Witness for `converse_rejects_second_conversation`: user 5 starts a
second conversation in channel 9. -/
theorem converse_rejects_second_conversation_witness :
    converse exState 5 (some 9) 2 "p" "grok-3" none none 100 ⟨⟨true, "r"⟩⟩ =
      (exState, [Report.alreadyActiveConversation]) :=
  converse_rejects_second_conversation exState 5 9 2 "p" "grok-3" none none 100 _
    ⟨(1, exConv), by decide, by decide, by decide⟩

/-- C9: for a positive chunk size, `chunk_text` splits a string into
non-empty chunks of at most the chunk size whose concatenation is the
original string, every chunk but possibly the last has exactly the chunk
size, and the empty string yields the empty list. -/
theorem chunk_text_correct (text : List Char) (n : Nat) (hn : 0 < n) :
    (chunk_text text n).flatten = text ∧
    (∀ c ∈ chunk_text text n, c ≠ [] ∧ c.length ≤ n) ∧
    (∀ c ∈ (chunk_text text n).dropLast, c.length = n) ∧
    chunk_text [] n = [] :=
  ⟨chunk_join text n hn, chunk_mem text n hn, chunk_dropLast text n hn, chunk_text_nil n⟩

/-- Witness for `chunk_text_correct`: a five-character string in chunks
of two concatenates back to itself. -/
theorem chunk_text_correct_witness :
    (chunk_text [Char.ofNat 97, Char.ofNat 98, Char.ofNat 99, Char.ofNat 100, Char.ofNat 101]
      2).flatten =
      [Char.ofNat 97, Char.ofNat 98, Char.ofNat 99, Char.ofNat 100, Char.ofNat 101] :=
  (chunk_text_correct _ 2 (by decide)).1

/-- C10: `on_message` never dispatches a message authored by the bot
itself, and otherwise invokes the handler of exactly the first registry
entry (in insertion order) whose channel id and conversation starter
both match the message — hence of at most one conversation. -/
theorem on_message_dispatches_first_match (st : CogState) (msg : Msg) (o : GenOracle) :
    (on_message st msg o).dispatched =
      if msg.authorId = st.botUser then none
      else (st.conversations.find? (fun p =>
        p.2.params.channel_id == some msg.channelId
          && p.2.params.conversation_starter == some msg.authorId)).map (fun p => p.1) := by
  have hloop : ∀ l : List (Nat × Conversation), dispatchLoop msg l =
      l.find? (fun p => p.2.params.channel_id == some msg.channelId
        && p.2.params.conversation_starter == some msg.authorId) := by
    intro l
    induction l with
    | nil => rfl
    | cons p rest ih =>
      by_cases h1 : p.2.params.channel_id = some msg.channelId
      · by_cases h2 : p.2.params.conversation_starter = some msg.authorId
        · rw [dispatchLoop, if_neg (by simp [h1]), if_neg (by simp [h2]),
            List.find?_cons_of_pos _ (by simp [h1, h2])]
        · rw [dispatchLoop, if_neg (by simp [h1]), if_pos (by simp [h2]),
            List.find?_cons_of_neg _ (by simp [h1, h2]), ih]
      · rw [dispatchLoop, if_pos (by simp [h1]),
          List.find?_cons_of_neg _ (by simp [h1]), ih]
  by_cases hbot : msg.authorId = st.botUser
  · simp [on_message, hbot]
  · simp only [on_message, hbot, if_neg, if_false, hloop st.conversations]
    cases hf : st.conversations.find? (fun p =>
        p.2.params.channel_id == some msg.channelId
          && p.2.params.conversation_starter == some msg.authorId) with
    | none => simp
    | some p => simp

/-- C4: with at least two history entries, an owner-invoked regeneration
that re-locates the triggering message pops exactly the final
user/assistant pair — generation is re-invoked on the earlier entries,
as a prefix, in order — with the first recent channel message authored by
the starter; when generation succeeds, its result replaces the
conversation's history and success is reported. -/
theorem regenerate_success_targets_last_pair (st : CogState) (starter convId : Nat)
    (o : RegenOracle) (conv : Conversation) (um : Msg)
    (hc : getConv st convId = some conv) (hl : 2 ≤ conv.chat.length)
    (hch : o.channelHasHistory = true) (hfetch : o.historyFetchOk = true)
    (hum : o.recent.find? (fun m => m.authorId == starter) = some um) :
    (regenerate_button st starter convId starter o).invoked =
        some (um, conv.chat.take (conv.chat.length - 2)) ∧
    ((handle_new_message_in_conversation um conv.params
        (conv.chat.take (conv.chat.length - 2)) o.gen).raised = false →
      regenerate_button st starter convId starter o =
        ⟨setConvChat st convId (handle_new_message_in_conversation um conv.params
            (conv.chat.take (conv.chat.length - 2)) o.gen).chat,
         (handle_new_message_in_conversation um conv.params
            (conv.chat.take (conv.chat.length - 2)) o.gen).reports ++ [Report.regenerated],
         some (um, conv.chat.take (conv.chat.length - 2))⟩) := by
  have hnl : ¬ (conv.chat.length < 2) := by omega
  rw [← dropLast_dropLast_eq_take conv.chat]
  constructor
  · by_cases hr : (handle_new_message_in_conversation um conv.params
        conv.chat.dropLast.dropLast o.gen).raised = true
    · simp [regenerate_button, hc, hnl, hch, hfetch, hum, hr]
    · simp [regenerate_button, hc, hnl, hch, hfetch, hum, hr]
  · intro hok
    simp only [regenerate_button, hc, hnl, hch, hfetch, hum, hok]
    simp [setConvChat_setConvChat]

/-- Witness for `regenerate_success_targets_last_pair`: the pair is
popped and the starter's latest channel message is re-submitted. -/
theorem regenerate_success_targets_last_pair_witness :
    (regenerate_button exState 5 1 5 ⟨true, true, [exFollowup], exGenOk⟩).invoked =
      some (exFollowup, exConv.chat.take (exConv.chat.length - 2)) :=
  (regenerate_success_targets_last_pair exState 5 1 ⟨true, true, [exFollowup], exGenOk⟩
    exConv exFollowup (by decide) (by decide) rfl rfl (by decide)).1

lemma regenRestore_setConvChat (st : CogState) (convId : Nat) (conv : Conversation)
    (hc : getConv st convId = some conv) (newChat es : List Entry) :
    regenRestore (setConvChat st convId newChat) convId es =
      setConvChat st convId (newChat ++ es) := by
  unfold regenRestore
  rw [getConv_setConvChat, hc]
  simp [setConvChat_setConvChat]

/-- C1 (amended): on a downstream failure that propagates out of
re-location or out of re-generation, `regenerate_button` re-appends both
removed entries, in their original order, after whatever history the
failed step left in place, before reporting the error.  When the failure
occurred during re-location — before generation touched the history —
the final state equals the pre-regeneration state exactly; a failure
during re-generation keeps any entries the failed generation attempt
had already appended, in front of the restored pair. -/
theorem regenerate_reappends_removed_on_raise (st : CogState) (starter convId : Nat)
    (o : RegenOracle) (conv : Conversation) (hc : getConv st convId = some conv)
    (hl : 2 ≤ conv.chat.length) (hch : o.channelHasHistory = true) :
    (o.historyFetchOk = false →
      regenerate_button st starter convId starter o = ⟨st, [Report.regenError], none⟩) ∧
    (∀ um, o.historyFetchOk = true →
      o.recent.find? (fun m => m.authorId == starter) = some um →
      (handle_new_message_in_conversation um conv.params
        conv.chat.dropLast.dropLast o.gen).raised = true →
      regenerate_button st starter convId starter o =
        ⟨setConvChat st convId ((handle_new_message_in_conversation um conv.params
            conv.chat.dropLast.dropLast o.gen).chat ++ removedPair conv.chat),
         (handle_new_message_in_conversation um conv.params
            conv.chat.dropLast.dropLast o.gen).reports ++ [Report.regenError],
         some (um, conv.chat.dropLast.dropLast)⟩) := by
  have hnl : ¬ (conv.chat.length < 2) := by omega
  have hrestore := restore_pop_two conv.chat hl
  simp only [removedPair] at hrestore
  constructor
  · intro hfetch
    simp only [regenerate_button, hc, hnl, hch, hfetch]
    rw [regenRestore_setConvChat st convId conv hc]
    simp only [hrestore, setConvChat_self st convId conv hc]
    simp
  · intro um hfetch hum hraised
    have key : regenerate_button st starter convId starter o =
        ⟨regenRestore (setConvChat (setConvChat st convId conv.chat.dropLast.dropLast)
            convId (handle_new_message_in_conversation um conv.params
              conv.chat.dropLast.dropLast o.gen).chat) convId (removedPair conv.chat),
         (handle_new_message_in_conversation um conv.params
            conv.chat.dropLast.dropLast o.gen).reports ++ [Report.regenError],
         some (um, conv.chat.dropLast.dropLast)⟩ := by
      simp [regenerate_button, hc, hnl, hch, hfetch, hum, hraised, removedPair]
    rw [key, setConvChat_setConvChat, regenRestore_setConvChat st convId conv hc]


/-- C1 counterexample: user 5 regenerates `exConv`; an error is raised
during re-generation (the sampling call raises, then the Error reply
raises, so the failure propagates) and the error is reported — yet the
final history is not the pre-regeneration history: the user entry the
generation attempt appended before failing stays in front of the
restored pair. -/
theorem regenerate_restores_state_counterexample :
    (regenerate_button exState 5 1 5 c1Oracle).reports = [Report.regenError] ∧
    (getConv (regenerate_button exState 5 1 5 c1Oracle).state 1).map (fun c => c.chat) =
      some [⟨Role.user, "again", []⟩, exUser, exAssistant] ∧
    (getConv (regenerate_button exState 5 1 5 c1Oracle).state 1).map (fun c => c.chat) ≠
      some exConv.chat := by decide


/-- Witness for `regenerate_reappends_removed_on_raise`: a failure while
re-locating restores the state exactly. -/
theorem regenerate_reappends_removed_on_raise_witness :
    regenerate_button exState 5 1 5 c1aOracle = ⟨exState, [Report.regenError], none⟩ :=
  (regenerate_reappends_removed_on_raise exState 5 1 c1aOracle exConv (by decide)
    (by decide) rfl).1 rfl

lemma getConv_setConvParams (st : CogState) (id : Nat)
    (f : ChatCompletionParameters → ChatCompletionParameters) :
    getConv (setConvParams st id f) id =
      (getConv st id).map (fun c => { c with params := f c.params }) := by
  simp [getConv, setConvParams, find?_updateFirst, Option.map_map]
  rfl


lemma available_tool_names (v : String) :
    (AVAILABLE_TOOLS.any (fun t => t.1 == v)) = knownToolNames.contains v := by
  apply Bool.eq_iff_iff.mpr
  simp [AVAILABLE_TOOLS, knownToolNames, List.any_eq_true, List.contains_eq_any_beq]
  tauto

/-- C6: an owner-invoked tool selection on an active conversation keeps
exactly the selected names that belong to the four known tool names
(unknown names are dropped), the surviving subset replaces the
conversation's tool set, and no error is reported. -/
theorem tool_select_filters_unknown_names (st : CogState) (starter convId : Nat)
    (raw : List String) (conv : Conversation) (hc : getConv st convId = some conv) :
    getConv (tool_select_callback st starter convId starter (some raw)).1 convId =
      some { conv with params := { conv.params with tools := raw.filter knownToolNames.contains } } ∧
    ((tool_select_callback st starter convId starter (some raw)).2 =
        [Report.toolsUpdated] ∨
     (tool_select_callback st starter convId starter (some raw)).2 =
        [Report.toolsDisabled]) := by
  have hfilter : raw.filter (fun v => AVAILABLE_TOOLS.any (fun t => t.1 == v)) =
      raw.filter knownToolNames.contains :=
    List.filter_congr (fun v _ => available_tool_names v)
  constructor
  · simp only [tool_select_callback, resolve_selected_tools, hc]
    rw [if_neg (by simp)]
    split
    · rw [getConv_setConvParams, hc]
      simp [hfilter]
    · rw [getConv_setConvParams, hc]
      simp [hfilter]
  · simp only [tool_select_callback, resolve_selected_tools, hc]
    rw [if_neg (by simp)]
    split
    · right; rfl
    · left; rfl

/-- Witness for `tool_select_filters_unknown_names`: the unknown name
"bogus" is dropped, the two known names replace the tool set. -/
theorem tool_select_filters_unknown_names_witness :
    getConv (tool_select_callback exState 5 1 5
        (some ["web_search", "bogus", "x_search"])).1 1 =
      some { exConv with params := { exConv.params with tools := ["web_search", "x_search"] } } :=
  ((tool_select_filters_unknown_names exState 5 1 ["web_search", "bogus", "x_search"]
    exConv (by decide)).1).trans (by decide)

lemma any_filter_ne (l : List (Nat × Conversation)) (id : Nat) :
    (l.filter (fun p => p.1 != id)).any (fun p => p.1 == id) = false := by
  rw [List.any_eq_false]
  intro x hx
  have hb := (List.mem_filter.mp hx).2
  simp only [bne_iff_ne, ne_eq] at hb
  simp [hb]

/-- C7 (amended): an owner-issued stop removes the conversation from the
registry, and every subsequent stop, pause, regenerate or tool-select
action by the conversation starter for the same identifier reports that
no active conversation was found, mutating nothing. -/
theorem stop_removes_then_actions_not_found (st : CogState) (starter convId : Nat)
    (data : Option (List String)) (o : RegenOracle)
    (hmem : st.conversations.any (fun p => p.1 == convId) = true) :
    getConv (stop_button st starter convId starter).1 convId = none ∧
    stop_button (stop_button st starter convId starter).1 starter convId starter =
      ((stop_button st starter convId starter).1, [Report.noActiveConversation]) ∧
    play_pause_button (stop_button st starter convId starter).1 starter convId starter =
      ((stop_button st starter convId starter).1, [Report.noActiveConversation]) ∧
    tool_select_callback (stop_button st starter convId starter).1 starter convId
        starter data =
      ((stop_button st starter convId starter).1, [Report.noActiveConversation]) ∧
    regenerate_button (stop_button st starter convId starter).1 starter convId starter o =
      ⟨(stop_button st starter convId starter).1, [Report.noActiveConversation], none⟩ := by
  have hstop : stop_button st starter convId starter =
      (removeConv st convId, [Report.conversationEnded]) := by
    simp [stop_button, hmem]
  have hnone : getConv (removeConv st convId) convId = none := by
    simp [getConv, removeConv, find?_filter_ne]
  have hany : (removeConv st convId).conversations.any (fun p => p.1 == convId) = false :=
    any_filter_ne st.conversations convId
  rw [hstop]
  exact ⟨hnone, by simp [stop_button, hany], by simp [play_pause_button, hnone],
    by simp [tool_select_callback, hnone], by simp [regenerate_button, hnone]⟩

/-- C7 counterexample: after user 5 stops conversation 1, a subsequent
stop by user 6 for the same identifier is refused as not allowed — it
does not report that no active conversation was found. -/
theorem stop_then_not_found_counterexample :
    getConv (stop_button exState 5 1 5).1 1 = none ∧
    (stop_button (stop_button exState 5 1 5).1 5 1 6).2 = [Report.notAllowedStop] ∧
    (stop_button (stop_button exState 5 1 5).1 5 1 6).2 ≠
      [Report.noActiveConversation] := by decide

/-- Witness for `stop_removes_then_actions_not_found`: stopping twice. -/
theorem stop_removes_then_actions_not_found_witness :
    stop_button (stop_button exState 5 1 5).1 5 1 5 =
      ((stop_button exState 5 1 5).1, [Report.noActiveConversation]) :=
  (stop_removes_then_actions_not_found exState 5 1 none
    ⟨true, true, [], exGenOk⟩ (by decide)).2.1

end ClaimProofs

end DiscordGrok
